import Mathlib

/-!
Shallow embedding of the Express backend in src/server.js: a CRUD API over a
products table, JWT-gated product routes, and bcrypt-based register/login.

Request-body fields are JSON scalars (or absent), modelled by JsValue.
JavaScript truthiness, typeof, and ToNumber coercion are modelled because the
handlers validate with (!name || typeof name !== "string") and
(isNaN(price) || price < 0), whose behaviour on non-number values is decided
by those coercions.  The database is modelled as an in-memory table that
stores exactly the parameterized-query arguments; a Bool flag on each handler
models the query throwing (connectivity/constraint failure), which the
handlers catch - or, in one case, do not.
-/

namespace Backend

/-- A JSON scalar request-body field; undefined models an absent field. -/
inductive JsValue where
  | undefined
  | null
  | bool (b : Bool)
  | num (q : ℚ)
  | str (s : String)
deriving DecidableEq, Repr

/-- Result of JavaScript ToNumber: NaN, an infinity, or a finite value. -/
inductive JsNum where
  | nan
  | posInf
  | negInf
  | fin (q : ℚ)
deriving DecidableEq, Repr

/-- JavaScript truthiness of a scalar: undefined, null, false, 0 and "" are falsy. -/
def JsValue.truthy : JsValue → Bool
  | .undefined => false
  | .null => false
  | .bool b => b
  | .num q => !(q == 0)
  | .str s => !(s == "")

/-- JavaScript typeof on a scalar value. -/
def JsValue.typeofStr : JsValue → String
  | .undefined => "undefined"
  | .null => "object"
  | .bool _ => "boolean"
  | .num _ => "number"
  | .str _ => "string"

/-- ASCII whitespace stripped by JavaScript string-to-number coercion. -/
def isJsWhite (c : Char) : Bool :=
  c == ' ' || c == '\t' || c == '\n' || c == '\r' || c == '\x0b' || c == '\x0c'

/-- Characters of a string with leading and trailing whitespace removed. -/
def trimChars (s : String) : List Char :=
  ((s.toList.dropWhile isJsWhite).reverse.dropWhile isJsWhite).reverse

/-- Value of a string of decimal digits. -/
def digitsToNat (cs : List Char) : ℕ :=
  cs.foldl (fun a c => a * 10 + (c.toNat - 48)) 0

def isHexDig (c : Char) : Bool :=
  c.isDigit || ('a' ≤ c && c ≤ 'f') || ('A' ≤ c && c ≤ 'F')

def hexVal (c : Char) : ℕ :=
  if c.isDigit then c.toNat - 48
  else if 'a' ≤ c && c ≤ 'f' then c.toNat - 87
  else c.toNat - 55

def isOctDig (c : Char) : Bool := '0' ≤ c && c ≤ '7'

def isBinDig (c : Char) : Bool := c == '0' || c == '1'

/-- Parse a whole radix literal body (after 0x / 0o / 0b); NaN if malformed. -/
def parseRadix (b : ℕ) (isDig : Char → Bool) (val : Char → ℕ) (cs : List Char) : JsNum :=
  if !cs.isEmpty && cs.all isDig then
    .fin ((cs.foldl (fun a c => a * b + val c) 0 : ℕ) : ℚ)
  else .nan

def notExpChar (c : Char) : Bool := !(c == 'e') && !(c == 'E')

/-- Split a numeric literal at its exponent marker, if any. -/
def splitAtExp (cs : List Char) : List Char × Option (List Char) :=
  match cs.dropWhile notExpChar with
  | [] => (cs, none)
  | _ :: rest => (cs.takeWhile notExpChar, some rest)

/-- Parse digits[.digits], .digits or digits. ; none if malformed. -/
def parseMantissa (cs : List Char) : Option ℚ :=
  let intp := cs.takeWhile Char.isDigit
  match cs.dropWhile Char.isDigit with
  | [] => if intp.isEmpty then none else some (digitsToNat intp : ℚ)
  | '.' :: frac =>
    if frac.all Char.isDigit && (!intp.isEmpty || !frac.isEmpty) then
      some ((digitsToNat intp : ℚ) + (digitsToNat frac : ℚ) / ((10 : ℚ) ^ frac.length))
    else none
  | _ => none

/-- Parse an exponent part: optional sign then digits. -/
def parseExpPart (cs : List Char) : Option ℤ :=
  match cs with
  | '+' :: rest => if !rest.isEmpty && rest.all Char.isDigit then some (digitsToNat rest : ℤ) else none
  | '-' :: rest => if !rest.isEmpty && rest.all Char.isDigit then some (-(digitsToNat rest : ℤ)) else none
  | _ => if !cs.isEmpty && cs.all Char.isDigit then some (digitsToNat cs : ℤ) else none

/-- Parse a decimal literal or Infinity, after an optional sign was removed. -/
def parseSigned (pos : Bool) (cs : List Char) : JsNum :=
  if cs = "Infinity".toList then (if pos then .posInf else .negInf)
  else
    match splitAtExp cs with
    | (m, none) =>
      match parseMantissa m with
      | some q => .fin (if pos then q else -q)
      | none => .nan
    | (m, some ecs) =>
      match parseMantissa m, parseExpPart ecs with
      | some q, some e => .fin ((if pos then q else -q) * (10 : ℚ) ^ e)
      | _, _ => .nan

/-- JavaScript Number() on a string: trim, then empty is 0, radix literals,
or an optionally signed decimal literal / Infinity; anything else is NaN. -/
def stringToNumber (s : String) : JsNum :=
  match trimChars s with
  | [] => .fin 0
  | '0' :: 'x' :: rest => parseRadix 16 isHexDig hexVal rest
  | '0' :: 'X' :: rest => parseRadix 16 isHexDig hexVal rest
  | '0' :: 'o' :: rest => parseRadix 8 isOctDig (fun c => c.toNat - 48) rest
  | '0' :: 'O' :: rest => parseRadix 8 isOctDig (fun c => c.toNat - 48) rest
  | '0' :: 'b' :: rest => parseRadix 2 isBinDig (fun c => c.toNat - 48) rest
  | '0' :: 'B' :: rest => parseRadix 2 isBinDig (fun c => c.toNat - 48) rest
  | '+' :: rest => parseSigned true rest
  | '-' :: rest => parseSigned false rest
  | cs => parseSigned true cs

/-- JavaScript ToNumber on a scalar value. -/
def toNumber : JsValue → JsNum
  | .undefined => .nan
  | .null => .fin 0
  | .bool b => .fin (if b then 1 else 0)
  | .num q => .fin q
  | .str s => stringToNumber s

/-- isNaN(v): ToNumber coercion yields NaN. -/
def jsIsNaN (v : JsValue) : Bool := toNumber v == .nan

/-- v < 0 with a number on the right: numeric comparison after ToNumber;
NaN compares false. -/
def jsLtZero (v : JsValue) : Bool :=
  match toNumber v with
  | .negInf => true
  | .fin q => decide (q < 0)
  | _ => false

/-- The name check of POST/PUT /products: !name || typeof name !== "string"
rejects; validName is the accepting side. -/
def validName (v : JsValue) : Bool := v.truthy && (v.typeofStr == "string")

/-- The price check of POST/PUT /products: isNaN(price) || price < 0 rejects. -/
def invalidPrice (v : JsValue) : Bool := jsIsNaN v || jsLtZero v

/-- A row of the products table: id integer; name and price store exactly the
parameterized-query arguments the handler passed. -/
structure Row where
  id : ℤ
  name : JsValue
  price : JsValue
deriving DecidableEq, Repr

/-- The products table. -/
abbrev Table := List Row

/-- A row of the users table: generated id, email as given, stored bcrypt hash. -/
structure UserRow where
  id : ℤ
  email : JsValue
  password : String
deriving DecidableEq, Repr

/-- The serial id the insert generates: one more than the largest id in use. -/
def nextId (t : Table) : ℤ := (t.map Row.id).foldl max 0 + 1

/-- Shape of a JSON response body produced by res.json in server.js. -/
inductive Body where
  | obj (fields : List (String × JsValue))
  | row (r : Row)
  | rows (rs : List Row)
  | deleteOk (r : Row)
  | tokenObj (userId : ℤ) (expiresIn : String)
deriving DecidableEq, Repr

/-- Outcome of one request: an HTTP response, or an async error that escaped
the handler uncaught (no res.status/res.json ever ran). -/
inductive Outcome where
  | response (status : ℕ) (body : Body)
  | uncaught
deriving DecidableEq, Repr

/-- res.status(st).json({error: msg}). -/
def jsonErr (st : ℕ) (msg : String) : Outcome :=
  .response st (.obj [("error", .str msg)])

/-- Postgres text-to-int4 parsing of the :id path segment used as the $1
parameter: optional whitespace, optional sign, digits, within int4 range;
anything else makes the query throw. -/
def pgParseInt (s : String) : Option ℤ :=
  let cs := trimChars s
  let p : Bool × List Char :=
    match cs with
    | '+' :: rest => (true, rest)
    | '-' :: rest => (false, rest)
    | _ => (true, cs)
  if !p.2.isEmpty && p.2.all Char.isDigit then
    let v : ℤ := (if p.1 then 1 else -1) * (digitsToNat p.2 : ℤ)
    if -(2 ^ 31) ≤ v ∧ v ≤ 2 ^ 31 - 1 then some v else none
  else none

/-- GET /products (server.js 108-115): SELECT all rows, 500 on query failure. -/
def listProducts (dbFail : Bool) (t : Table) : Outcome :=
  if dbFail then jsonErr 500 "Database query failed"
  else .response 200 (.rows t)

/-- GET /products/:id (server.js 118-134): SELECT by id, 404 when no row,
500 when the query throws (connectivity, or an id the database cannot parse). -/
def getProductById (dbFail : Bool) (idStr : String) (t : Table) : Outcome :=
  if dbFail then jsonErr 500 "Database query failed"
  else
    match pgParseInt idStr with
    | none => jsonErr 500 "Database query failed"
    | some i =>
      match t.find? (fun r => r.id == i) with
      | none => jsonErr 404 "Product not found"
      | some r => .response 200 (.row r)

/-- POST /products (server.js 137-155): name then price validation, then
INSERT ... RETURNING *; 500 when the insert throws. -/
def createProduct (dbFail : Bool) (name price : JsValue) (t : Table) : Outcome × Table :=
  if !(validName name) then (jsonErr 400 "Invalid name", t)
  else if invalidPrice price then (jsonErr 400 "Invalid price", t)
  else if dbFail then (jsonErr 500 "Database insert failed", t)
  else (.response 200 (.row ⟨nextId t, name, price⟩), t ++ [⟨nextId t, name, price⟩])

/-- PUT /products/:id (server.js 158-181): same validation, then
UPDATE ... WHERE id=$3 RETURNING *; 404 when no row matched. -/
def updateProduct (dbFail : Bool) (idStr : String) (name price : JsValue) (t : Table) :
    Outcome × Table :=
  if !(validName name) then (jsonErr 400 "Invalid name", t)
  else if invalidPrice price then (jsonErr 400 "Invalid price", t)
  else if dbFail then (jsonErr 500 "Database update failed", t)
  else
    match pgParseInt idStr with
    | none => (jsonErr 500 "Database update failed", t)
    | some i =>
      if t.any (fun r => r.id == i) then
        (.response 200 (.row ⟨i, name, price⟩),
         t.map (fun r => if r.id == i then ⟨r.id, name, price⟩ else r))
      else (jsonErr 404 "Product not found", t)

/-- DELETE /products/:id (server.js 184-200): DELETE ... RETURNING *;
404 when no row matched, else {success: true, deleted: row}. -/
def deleteProduct (dbFail : Bool) (idStr : String) (t : Table) : Outcome × Table :=
  if dbFail then (jsonErr 500 "Database delete failed", t)
  else
    match pgParseInt idStr with
    | none => (jsonErr 500 "Database delete failed", t)
    | some i =>
      match t.filter (fun r => r.id == i) with
      | [] => (jsonErr 404 "Product not found", t)
      | r :: _ => (.response 200 (.deleteOk r), t.filter (fun r => !(r.id == i)))

/-- POST /auth/register (server.js 34-51): presence check on email and
password, bcrypt.hash (abstract), INSERT ... RETURNING id, email inside
try/catch.  genId is the id the database generates. -/
def register (dbFail : Bool) (email password : JsValue) (hashFn : JsValue → String)
    (genId : ℤ) : Outcome :=
  if !email.truthy || !password.truthy then jsonErr 400 "Email and password required"
  else
    let hashed := hashFn password
    if dbFail then jsonErr 500 "Registration failed"
    else
      let _ := hashed
      .response 200 (.obj [("id", .num (genId : ℚ)), ("email", email)])

/-- POST /auth/login (server.js 54-73): SELECT by email with NO try/catch -
a query failure escapes the async handler uncaught.  bcrypt.compare is the
abstract cmp; success signs {userId} with expiresIn "7d". -/
def login (dbFail : Bool) (email password : JsValue) (users : List UserRow)
    (cmp : JsValue → String → Bool) : Outcome :=
  if dbFail then .uncaught
  else
    match users.find? (fun u => u.email == email) with
    | none => jsonErr 400 "User not found"
    | some u =>
      if !(cmp password u.password) then jsonErr 400 "Invalid password"
      else .response 200 (.tokenObj u.id "7d")

/-- Result of jwt.verify on a token string: the decoded userId, or a thrown
error (bad signature or expired). -/
inductive VerifyResult where
  | ok (userId : ℤ)
  | fail
deriving DecidableEq, Repr

/-- JavaScript String.prototype.split(" "): split at every single space,
keeping empty segments; the empty string splits to one empty segment. -/
def splitAtSpaces : List Char → List (List Char)
  | [] => [[]]
  | c :: rest =>
    let r := splitAtSpaces rest
    if c == ' ' then [] :: r
    else
      match r with
      | [] => [[c]]
      | seg :: segs => (c :: seg) :: segs

/-- auth.split(" ")[1]: the second space-separated segment, if any. -/
def headerToken (a : String) : Option String :=
  ((splitAtSpaces a.toList).map (fun cs => String.mk cs))[1]?

/-- authMiddleware (server.js 76-92): requires an Authorization header
starting with "Bearer ", takes auth.split(" ")[1] as the token, verifies it;
on success passes the decoded userId on, otherwise responds 401. -/
def authMiddleware (header : Option String) (verifier : String → VerifyResult) :
    Except Outcome ℤ :=
  match header with
  | none => .error (jsonErr 401 "Unauthorized")
  | some a =>
    if "Bearer ".toList.isPrefixOf a.toList then
      match headerToken a with
      | none => .error (jsonErr 401 "Invalid token")
      | some tok =>
        match verifier tok with
        | .ok uid => .ok uid
        | .fail => .error (jsonErr 401 "Invalid token")
    else .error (jsonErr 401 "Unauthorized")

/-- One request to a /products route. -/
inductive ProductReq where
  | list
  | getOne (idStr : String)
  | create (name price : JsValue)
  | updateOne (idStr : String) (name price : JsValue)
  | deleteOne (idStr : String)
deriving DecidableEq, Repr

/-- Dispatch to the product handler; userId is req.userId as attached by the
middleware - the handlers read only params and body, never req.userId. -/
def runProductHandler (dbFail : Bool) (req : ProductReq) (userId : ℤ) (t : Table) :
    Outcome × Table :=
  match req with
  | .list => (listProducts dbFail t, t)
  | .getOne i => (getProductById dbFail i t, t)
  | .create n p => createProduct dbFail n p t
  | .updateOne i n p => updateProduct dbFail i n p t
  | .deleteOne i => deleteProduct dbFail i t

/-- app.use("/products", authMiddleware) then the route handler
(server.js 95): the handler runs only if the middleware called next(). -/
def productRoute (header : Option String) (verifier : String → VerifyResult)
    (dbFail : Bool) (req : ProductReq) (t : Table) : Outcome × Table :=
  match authMiddleware header verifier with
  | .error o => (o, t)
  | .ok uid => runProductHandler dbFail req uid t

/-- A single write request arriving at the product API boundary. -/
inductive WriteOp where
  | create (name price : JsValue)
  | updateOne (idStr : String) (name price : JsValue)
  | deleteOne (idStr : String)
deriving DecidableEq, Repr

/-- The table after one write request; dbFail tells whether its query threw. -/
def applyWrite (dbFail : Bool) (t : Table) (op : WriteOp) : Table :=
  match op with
  | .create n p => (createProduct dbFail n p t).2
  | .updateOne i n p => (updateProduct dbFail i n p t).2
  | .deleteOne i => (deleteProduct dbFail i t).2

/-- The table after a sequence of write requests. -/
def applyWrites (t : Table) (ops : List (Bool × WriteOp)) : Table :=
  ops.foldl (fun acc op => applyWrite op.1 acc op.2) t

/-- The row property the boundary validation actually enforces: the name is a
truthy string and the price passes the JS numeric check. -/
def rowOk (r : Row) : Bool := validName r.name && !(invalidPrice r.price)

/-- Every row of the table passes rowOk. -/
def tableOk (t : Table) : Bool := t.all rowOk

/-- A caught data-access failure surfaced as a status plus {error: message}. -/
def isJsonError (o : Outcome) : Prop :=
  ∃ st msg, o = .response st (.obj [("error", .str msg)])

/-- Whether a scalar value is exactly the string s. -/
def JsValue.strMentions (v : JsValue) (s : String) : Bool :=
  match v with
  | .str t => t == s
  | _ => false

/-- Whether the string s occurs as a value anywhere in a response body. -/
def Body.mentions : Body → String → Bool
  | .obj fs, s => fs.any (fun p => p.2.strMentions s)
  | .row r, s => r.name.strMentions s || r.price.strMentions s
  | .rows rs, s => rs.any (fun r => r.name.strMentions s || r.price.strMentions s)
  | .deleteOk r, s => r.name.strMentions s || r.price.strMentions s
  | .tokenObj _ _, _ => false

/-- Whether the string s occurs as a value in the response, if any. -/
def Outcome.mentions : Outcome → String → Bool
  | .response _ b, s => b.mentions s
  | .uncaught, _ => false

theorem tableOk_iff (t : Table) : tableOk t = true ↔ ∀ r ∈ t, rowOk r = true := by
  simp [tableOk, List.all_eq_true]

theorem applyWrite_preserves (df : Bool) (t : Table) (op : WriteOp)
    (h : tableOk t = true) : tableOk (applyWrite df t op) = true := by
  rw [tableOk_iff] at h ⊢
  cases op with
  | create n p =>
    cases hv : validName n with
    | false => simpa [applyWrite, createProduct, hv] using h
    | true =>
      cases hp : invalidPrice p with
      | true => simpa [applyWrite, createProduct, hv, hp] using h
      | false =>
        cases df with
        | true => simpa [applyWrite, createProduct, hv, hp] using h
        | false =>
          intro r hr
          simp [applyWrite, createProduct, hv, hp] at hr
          rcases hr with hr | hr
          · exact h r hr
          · subst hr; simp [rowOk, hv, hp]
  | updateOne i n p =>
    cases hv : validName n with
    | false => simpa [applyWrite, updateProduct, hv] using h
    | true =>
      cases hp : invalidPrice p with
      | true => simpa [applyWrite, updateProduct, hv, hp] using h
      | false =>
        cases df with
        | true => simpa [applyWrite, updateProduct, hv, hp] using h
        | false =>
          cases hpi : pgParseInt i with
          | none => simpa [applyWrite, updateProduct, hv, hp, hpi] using h
          | some k =>
            cases hm : t.any (fun r => r.id == k) with
            | false => simpa [applyWrite, updateProduct, hv, hp, hpi, hm] using h
            | true =>
              intro r hr
              simp [applyWrite, updateProduct, hv, hp, hpi, hm] at hr
              rcases hr with ⟨a, ha, hra⟩
              by_cases hid : a.id = k
              · rw [← hra]; simp [hid, rowOk, hv, hp]
              · rw [← hra]; simp [hid]; exact h a ha
  | deleteOne i =>
    cases df with
    | true => simpa [applyWrite, deleteProduct] using h
    | false =>
      cases hpi : pgParseInt i with
      | none => simpa [applyWrite, deleteProduct, hpi] using h
      | some k =>
        cases hf : t.filter (fun r => r.id == k) with
        | nil => simpa [applyWrite, deleteProduct, hpi, hf] using h
        | cons r0 rest =>
          intro r hr
          simp [applyWrite, deleteProduct, hpi, hf] at hr
          exact h r hr.1

/-- C1, counterexample: the POST /products body name = "Widget", price = null
is not rejected, because isNaN(null) is false (Number(null) = 0) and
null < 0 is false; the handler inserts a row whose price is null and answers
200, although null is not a number, where the claim demands a 400 with no
insert performed. -/
theorem create_accepts_null_price :
    createProduct false (.str "Widget") .null [] =
      (.response 200 (.row ⟨1, .str "Widget", .null⟩), [⟨1, .str "Widget", .null⟩]) ∧
    (∀ q : ℚ, JsValue.null ≠ JsValue.num q) ∧
    (createProduct false (.str "Widget") .null []).1 ≠ jsonErr 400 "Invalid price" := by
  refine ⟨rfl, fun q => by simp, by decide⟩

/-- C1 (amended): POST /products answers 400 Invalid name with no insert
whenever the name fails the JS check (absent, empty, or not a string); else
400 Invalid price with no insert whenever the JS numeric coercion of the
price is NaN or negative; otherwise, the insert succeeding, it appends the
row and returns it with the generated id and the same name and price. -/
theorem create_validation_and_insert (name price : JsValue) (t : Table) :
    (validName name = false →
      ∀ df, createProduct df name price t = (jsonErr 400 "Invalid name", t)) ∧
    (validName name = true → invalidPrice price = true →
      ∀ df, createProduct df name price t = (jsonErr 400 "Invalid price", t)) ∧
    (validName name = true → invalidPrice price = false →
      createProduct false name price t =
        (.response 200 (.row ⟨nextId t, name, price⟩), t ++ [⟨nextId t, name, price⟩])) :=
  ⟨fun h df => by simp [createProduct, h],
   fun h1 h2 df => by simp [createProduct, h1, h2],
   fun h1 h2 => by simp [createProduct, h1, h2]⟩

/-- Witness for C1 (amended): creating name "Widget", price 9.99 in the empty
table returns the created row id 1 with the same name and price. -/
theorem create_validation_and_insert_witness :
    createProduct false (.str "Widget") (.num (9.99 : ℚ)) [] =
      (.response 200 (.row ⟨nextId [], .str "Widget", .num (9.99 : ℚ)⟩),
       [⟨nextId [], .str "Widget", .num (9.99 : ℚ)⟩]) :=
  (create_validation_and_insert (.str "Widget") (.num (9.99 : ℚ)) []).2.2
    (by decide) (by norm_num [invalidPrice, jsIsNaN, jsLtZero, toNumber]; simp)

/-- C2, counterexample: starting from the empty table, which satisfies the
claimed invariant, a create with price = true is accepted (Number(true) = 1),
leaving a row whose stored price is the boolean true - not a number - so not
every reachable table has rows with numeric prices. -/
theorem invariant_fails_boolean_price :
    applyWrite false [] (.create (.str "Gadget") (.bool true)) =
      [⟨1, .str "Gadget", .bool true⟩] ∧
    (∀ q : ℚ, JsValue.bool true ≠ JsValue.num q) :=
  ⟨rfl, fun q => by simp⟩

/-- C2 (amended): for every sequence of create/update/delete requests from a
table whose rows all pass the boundary validation, every row still passes it
after each request: the name is a non-empty string and the price is a value
whose JS numeric coercion is neither NaN nor negative. -/
theorem boundary_invariant (t : Table) (ops : List (Bool × WriteOp))
    (h : tableOk t = true) : tableOk (applyWrites t ops) = true := by
  induction ops generalizing t with
  | nil => exact h
  | cons op rest ih => exact ih _ (applyWrite_preserves op.1 t op.2 h)

/-- Witness for C2 (amended): a create of Widget at 5 followed by a delete,
starting from the empty table, leaves only validated rows. -/
theorem boundary_invariant_witness :
    tableOk (applyWrites []
      [(false, .create (.str "Widget") (.num 5)), (false, .deleteOne "1")]) = true :=
  boundary_invariant [] _ (by decide)

/-- C3, counterexample: the POST /auth/login handler has no try/catch around
its SELECT, so a database failure there escapes the async handler uncaught -
no status and no JSON {error} body are ever produced for that request. -/
theorem login_db_failure_uncaught :
    login true (.str "a@b.c") (.str "pw") [] (fun _ _ => false) = .uncaught := rfl

/-- C3 (amended): every product handler and the register handler catch a
database failure inside the handler and answer some HTTP status with a JSON
{error: message} body, but the login handler lets the failure of its user
lookup escape uncaught. -/
theorem handlers_catch_db_failures (t : Table) (idStr : String)
    (name price email password : JsValue) (hashFn : JsValue → String) (genId : ℤ)
    (users : List UserRow) (cmp : JsValue → String → Bool) :
    isJsonError (listProducts true t) ∧
    isJsonError (getProductById true idStr t) ∧
    isJsonError (createProduct true name price t).1 ∧
    isJsonError (updateProduct true idStr name price t).1 ∧
    isJsonError (deleteProduct true idStr t).1 ∧
    isJsonError (register true email password hashFn genId) ∧
    login true email password users cmp = .uncaught := by
  refine ⟨⟨500, "Database query failed", rfl⟩, ⟨500, "Database query failed", rfl⟩,
    ?_, ?_, ⟨500, "Database delete failed", rfl⟩, ?_, rfl⟩
  · cases hv : validName name with
    | false => exact ⟨400, "Invalid name", by simp [createProduct, hv, jsonErr]⟩
    | true =>
      cases hp : invalidPrice price with
      | true => exact ⟨400, "Invalid price", by simp [createProduct, hv, hp, jsonErr]⟩
      | false => exact ⟨500, "Database insert failed", by simp [createProduct, hv, hp, jsonErr]⟩
  · cases hv : validName name with
    | false => exact ⟨400, "Invalid name", by simp [updateProduct, hv, jsonErr]⟩
    | true =>
      cases hp : invalidPrice price with
      | true => exact ⟨400, "Invalid price", by simp [updateProduct, hv, hp, jsonErr]⟩
      | false => exact ⟨500, "Database update failed", by simp [updateProduct, hv, hp, jsonErr]⟩
  · cases he : email.truthy with
    | false => exact ⟨400, "Email and password required", by simp [register, he, jsonErr]⟩
    | true =>
      cases hp : password.truthy with
      | false => exact ⟨400, "Email and password required", by simp [register, he, hp, jsonErr]⟩
      | true => exact ⟨500, "Registration failed", by simp [register, he, hp, jsonErr]⟩

/-- C4: any request to a /products route whose Authorization header is
missing, does not start with "Bearer ", or carries a token that fails
verification, is answered 401 by the middleware with the table untouched -
the product handler is never reached. -/
theorem product_routes_gated (header : Option String) (verifier : String → VerifyResult)
    (df : Bool) (req : ProductReq) (t : Table)
    (h : header = none ∨ ∃ a, header = some a ∧
      (¬ ("Bearer ".toList <+: a.toList) ∨
       ∀ tok, headerToken a = some tok → verifier tok = .fail)) :
    ∃ msg, productRoute header verifier df req t = (jsonErr 401 msg, t) := by
  rcases h with h | ⟨a, rfl, h⟩
  · exact ⟨"Unauthorized", by simp [h, productRoute, authMiddleware]⟩
  · rcases h with h | h
    · refine ⟨"Unauthorized", ?_⟩
      simp at h
      simp [productRoute, authMiddleware, h]
    · by_cases hs : "Bearer ".toList <+: a.toList
      · cases htok : headerToken a with
        | none =>
          refine ⟨"Invalid token", ?_⟩
          simp at hs
          simp [productRoute, authMiddleware, hs, htok]
        | some tok =>
          refine ⟨"Invalid token", ?_⟩
          simp at hs
          simp [productRoute, authMiddleware, hs, htok, h tok htok]
      · refine ⟨"Unauthorized", ?_⟩
        simp at hs
        simp [productRoute, authMiddleware, hs]

/-- Witness for C4: a syntactically well-formed bearer header whose token the
verifier rejects is answered 401 with the table unchanged. -/
theorem product_routes_gated_witness :
    ∃ msg, productRoute (some "Bearer bogus") (fun _ => .fail) false .list [] =
      (jsonErr 401 msg, []) :=
  product_routes_gated (some "Bearer bogus") (fun _ => .fail) false .list []
    (Or.inr ⟨"Bearer bogus", rfl, Or.inr (fun _ _ => rfl)⟩)

/-- C5: POST /auth/login answers 400 "User not found" when no user row
matches the email; 400 "Invalid password" - and never a token - when a user
matches but the hash comparison fails; and otherwise 200 with a token signed
over that user's id with the fixed "7d" expiry. -/
theorem login_cases (email password : JsValue) (users : List UserRow)
    (cmp : JsValue → String → Bool) :
    ((∀ u ∈ users, (u.email == email) = false) →
      login false email password users cmp = jsonErr 400 "User not found") ∧
    (∀ u, users.find? (fun v => v.email == email) = some u →
      cmp password u.password = false →
      login false email password users cmp = jsonErr 400 "Invalid password" ∧
      ∀ uid e, login false email password users cmp ≠ .response 200 (.tokenObj uid e)) ∧
    (∀ u, users.find? (fun v => v.email == email) = some u →
      cmp password u.password = true →
      login false email password users cmp = .response 200 (.tokenObj u.id "7d")) := by
  refine ⟨fun h => ?_, fun u hu hc => ?_, fun u hu hc => ?_⟩
  · have hnone : users.find? (fun v => v.email == email) = none := by
      rw [List.find?_eq_none]
      intro v hv
      simp [h v hv]
    simp [login, hnone]
  · constructor
    · simp [login, hu, hc]
    · intro uid e
      simp [login, hu, hc, jsonErr]
  · simp [login, hu, hc]

/-- Witness for C5: with one stored user, a wrong password yields 400 Invalid
password and a matching comparison yields the signed token for user id 1. -/
theorem login_cases_witness :
    login false (.str "a@b.c") (.str "wrong")
        [⟨1, .str "a@b.c", "HASH"⟩] (fun p _ => p == .str "pw") =
      jsonErr 400 "Invalid password" ∧
    login false (.str "a@b.c") (.str "pw")
        [⟨1, .str "a@b.c", "HASH"⟩] (fun p _ => p == .str "pw") =
      .response 200 (.tokenObj 1 "7d") :=
  ⟨((login_cases (.str "a@b.c") (.str "wrong") [⟨1, .str "a@b.c", "HASH"⟩]
      (fun p _ => p == .str "pw")).2.1 ⟨1, .str "a@b.c", "HASH"⟩
      (by decide) (by decide)).1,
   (login_cases (.str "a@b.c") (.str "pw") [⟨1, .str "a@b.c", "HASH"⟩]
      (fun p _ => p == .str "pw")).2.2 ⟨1, .str "a@b.c", "HASH"⟩
      (by decide) (by decide)⟩

/-- C6: a PUT /products/:id with a valid name and price whose id parses but
matches no row answers 404 and leaves the table exactly as it was. -/
theorem update_missing_id (idStr : String) (name price : JsValue) (t : Table) (i : ℤ)
    (hn : validName name = true) (hp : invalidPrice price = false)
    (hid : pgParseInt idStr = some i) (hno : ∀ r ∈ t, r.id ≠ i) :
    updateProduct false idStr name price t = (jsonErr 404 "Product not found", t) := by
  have hany : t.any (fun r => r.id == i) = false := by
    rw [List.any_eq_false]
    intro r hr
    simp [hno r hr]
  simp [updateProduct, hn, hp, hid, hany]

/-- Witness for C6: updating id 2 in a one-row table holding only id 1
answers 404 and the table still holds exactly that row. -/
theorem update_missing_id_witness :
    updateProduct false "2" (.str "Widget") (.num 5) [⟨1, .str "A", .num 3⟩] =
      (jsonErr 404 "Product not found", [⟨1, .str "A", .num 3⟩]) :=
  update_missing_id "2" (.str "Widget") (.num 5) [⟨1, .str "A", .num 3⟩] 2
    (by decide) (by decide) (by decide) (by decide)

/-- C7: whenever DELETE /products/:id succeeds (200 with the deleted row under
a success flag), a GET /products/:id on the resulting table for the same id
answers 404. -/
theorem delete_then_get (idStr : String) (t : Table) (r : Row)
    (h : (deleteProduct false idStr t).1 = .response 200 (.deleteOk r)) :
    getProductById false idStr ((deleteProduct false idStr t).2) =
      jsonErr 404 "Product not found" := by
  cases hp : pgParseInt idStr with
  | none => simp [deleteProduct, hp, jsonErr] at h
  | some i =>
    cases hf : t.filter (fun r => r.id == i) with
    | nil => simp [deleteProduct, hp, hf, jsonErr] at h
    | cons r0 rest =>
      have h2 : (deleteProduct false idStr t).2 = t.filter (fun r => !(r.id == i)) := by
        simp [deleteProduct, hp, hf]
      rw [h2]
      have hfind : (t.filter (fun r => !(r.id == i))).find? (fun r => r.id == i) = none := by
        rw [List.find?_eq_none]
        intro x hx
        have := (List.mem_filter.mp hx).2
        simp at this
        simp [this]
      simp [getProductById, hp, hfind]

/-- Witness for C7: deleting id 1 from a one-row table succeeds, and fetching
id 1 afterwards answers 404. -/
theorem delete_then_get_witness :
    getProductById false "1" ((deleteProduct false "1" [⟨1, .str "A", .num 2⟩]).2) =
      jsonErr 404 "Product not found" :=
  delete_then_get "1" [⟨1, .str "A", .num 2⟩] ⟨1, .str "A", .num 2⟩ (by decide)

/-- C8, counterexample: a PUT /products/abc whose body fails validation never
reaches the query, so the unparseable id "abc" yields 400 Invalid name, not
the claimed 500 server error. -/
theorem put_bad_id_invalid_body :
    pgParseInt "abc" = none ∧
    updateProduct false "abc" .null (.num 1) [] = (jsonErr 400 "Invalid name", []) ∧
    (updateProduct false "abc" .null (.num 1) []).1 ≠ jsonErr 500 "Database update failed" := by
  refine ⟨by decide, rfl, by decide⟩

/-- C8 (amended): for GET and DELETE on /products/:id, and for PUT whose body
passes validation, an id the database cannot parse as an integer makes the
query throw and the handler answer 500 - never 404 - with the table
unchanged. -/
theorem invalid_id_yields_500 (idStr : String) (t : Table)
    (h : pgParseInt idStr = none) :
    getProductById false idStr t = jsonErr 500 "Database query failed" ∧
    getProductById false idStr t ≠ jsonErr 404 "Product not found" ∧
    deleteProduct false idStr t = (jsonErr 500 "Database delete failed", t) ∧
    ∀ name price, validName name = true → invalidPrice price = false →
      updateProduct false idStr name price t =
        (jsonErr 500 "Database update failed", t) := by
  refine ⟨by simp [getProductById, h], ?_, by simp [deleteProduct, h],
    fun name price hn hp => by simp [updateProduct, hn, hp, h]⟩
  simp [getProductById, h, jsonErr]

/-- Witness for C8 (amended): id "abc" makes GET answer 500 and a PUT with a
valid body answer 500. -/
theorem invalid_id_yields_500_witness :
    getProductById false "abc" [] = jsonErr 500 "Database query failed" ∧
    updateProduct false "abc" (.str "Widget") (.num 1) [] =
      (jsonErr 500 "Database update failed", []) :=
  ⟨(invalid_id_yields_500 "abc" [] (by decide)).1,
   (invalid_id_yields_500 "abc" [] (by decide)).2.2.2 (.str "Widget") (.num 1)
     (by decide) (by decide)⟩

/-- C9: two /products requests that differ only in which user's valid token
they carry get identical responses and leave identical tables: the decoded
user id is attached to the request but no product handler reads it. -/
theorem product_response_user_independent (h1 h2 : Option String)
    (verifier : String → VerifyResult) (df : Bool) (req : ProductReq) (t : Table)
    (u1 u2 : ℤ) (ha : authMiddleware h1 verifier = .ok u1)
    (hb : authMiddleware h2 verifier = .ok u2) :
    productRoute h1 verifier df req t = productRoute h2 verifier df req t := by
  unfold productRoute
  rw [ha, hb]
  cases req <;> rfl

/-- Witness for C9: tokens t1 and t2 decode to user ids 1 and 2 under the
same verifier, and the create request gets the same result under both. -/
theorem product_response_user_independent_witness :
    productRoute (some "Bearer t1") (fun s => if s == "t1" then .ok 1 else .ok 2)
        false (.create (.str "Widget") (.num 3)) [] =
      productRoute (some "Bearer t2") (fun s => if s == "t1" then .ok 1 else .ok 2)
        false (.create (.str "Widget") (.num 3)) [] :=
  product_response_user_independent (some "Bearer t1") (some "Bearer t2")
    (fun s => if s == "t1" then .ok 1 else .ok 2) false
    (.create (.str "Widget") (.num 3)) [] 1 2 rfl rfl

/-- C10: a successful POST /auth/register answers exactly {id, email} for the
generated id and the submitted email, and every register response - success
or failure - mentions no string value other than the submitted email and the
two fixed error messages; in particular neither the plaintext password nor
its hash, when distinct from those, ever appears. -/
theorem register_response_content (email password : JsValue)
    (hashFn : JsValue → String) (genId : ℤ) (df : Bool) :
    (df = false → email.truthy = true → password.truthy = true →
      register df email password hashFn genId =
        .response 200 (.obj [("id", .num (genId : ℚ)), ("email", email)])) ∧
    (∀ s, (register df email password hashFn genId).mentions s = true →
      s = "Email and password required" ∨ s = "Registration failed" ∨
        email = .str s) := by
  constructor
  · intro hdf he hp
    simp [register, he, hp, hdf]
  · intro s hs
    cases he : email.truthy with
    | false =>
      simp [register, jsonErr, he, Outcome.mentions, Body.mentions, JsValue.strMentions] at hs
      exact Or.inl hs.symm
    | true =>
      cases hp : password.truthy with
      | false =>
        simp [register, jsonErr, he, hp, Outcome.mentions, Body.mentions, JsValue.strMentions] at hs
        exact Or.inl hs.symm
      | true =>
        cases df with
        | true =>
          simp [register, jsonErr, he, hp, Outcome.mentions, Body.mentions, JsValue.strMentions] at hs
          exact Or.inr (Or.inl hs.symm)
        | false =>
          simp [register, he, hp, Outcome.mentions, Body.mentions, JsValue.strMentions] at hs
          cases email with
          | str e => simp_all
          | undefined => simp_all
          | null => simp_all
          | bool b => simp_all
          | num q => simp_all

/-- Witness for C10: a concrete successful registration answers exactly
{id: 7, email: "a@b.c"}, and the response does not mention the password. -/
theorem register_response_content_witness :
    register false (.str "a@b.c") (.str "hunter2") (fun _ => "HASH") 7 =
      .response 200 (.obj [("id", .num ((7 : ℤ) : ℚ)), ("email", .str "a@b.c")]) ∧
    (register false (.str "a@b.c") (.str "hunter2") (fun _ => "HASH") 7).mentions
      "hunter2" = false :=
  ⟨(register_response_content (.str "a@b.c") (.str "hunter2") (fun _ => "HASH")
      7 false).1 rfl (by decide) (by decide),
   by decide⟩

end Backend
